import Mathlib

/-!
Shallow embedding of the MeetMind meeting-intelligence core
(app/services/whisper_service.py, app/services/vector_store_service.py,
app/services/rag_service.py, app/constants.py, app/exceptions.py),
together with theorems settling the frozen claims about it.

Numbers: Python floats for durations and distances are modelled as exact
rationals; Python ints as Lean integers or naturals.  External collaborators
(ffmpeg, the speech-to-text API, the embedding API, the Chroma HTTP store,
the langchain text splitter) are modelled as oracle parameters; the code of
this repository that consumes them is embedded faithfully.
-/

namespace MeetMind

/-! ## Constants (whisper_service.py class attributes and app/constants.py) -/

def MAX_FILE_SIZE : ℕ := 25 * 1024 * 1024

def CHUNK_DURATION_SECONDS : ℚ := 600

def OVERLAP_SECONDS : ℚ := 10

def MAX_SNIPPET_LENGTH : ℕ := 200

def MAX_CONTEXT_SNIPPETS : ℕ := 3

def DOC_TYPE_TRANSCRIPT : String := "transcript"

def DOC_TYPE_SUMMARY : String := "summary"

def DOC_TYPE_DECISION : String := "decision"

def DOC_TYPE_ACTION_ITEM : String := "action_item"

def DOC_TYPE_KEY_POINT : String := "key_point"

/-! ## Segmenter (WhisperService.split_audio_with_ffmpeg, chunk schedule)

The Python source computes
  num_chunks = max(1, int((duration_seconds - OVERLAP_SECONDS) / effective) + 1)
where int(.) truncates toward zero, and for each i in range(num_chunks)
  start_time = 0 if i == 0 else i * effective
  chunk_duration = min(CHUNK_DURATION_SECONDS, duration_seconds - start_time).
-/

/-- Python int() applied to a float: truncation toward zero. -/
def pyInt (q : ℚ) : ℤ := if 0 ≤ q then ⌊q⌋ else ⌈q⌉

def effective_chunk_duration : ℚ := CHUNK_DURATION_SECONDS - OVERLAP_SECONDS

/-- Number of chunks computed by split_audio_with_ffmpeg (always at least 1). -/
def numChunks (duration_seconds : ℚ) : ℕ :=
  (max 1 (pyInt ((duration_seconds - OVERLAP_SECONDS) / effective_chunk_duration) + 1)).toNat

/-- start_time for chunk i, as computed in the loop body. -/
def chunkStart (i : ℕ) : ℚ :=
  if i = 0 then 0 else (i : ℚ) * effective_chunk_duration

/-- Time window (start, duration) of every chunk produced by
split_audio_with_ffmpeg for a file of the given total duration. -/
def split_audio_with_ffmpeg (duration_seconds : ℚ) : List (ℚ × ℚ) :=
  (List.range (numChunks duration_seconds)).map fun i =>
    (chunkStart i, min CHUNK_DURATION_SECONDS (duration_seconds - chunkStart i))

/-! ## Transcription coordinator
(WhisperService.transcribe_chunks_parallel, merge_overlapping_transcripts)

The Python source pre-sizes transcripts = [None] * total_chunks, then for
every completed future writes transcripts[chunk_index] = transcript, the
completion order being arbitrary; merge joins with a single space.  The
per-chunk transcript returned by the external speech-to-text service is the
oracle f; the completion order of the worker pool is the oracle order.
-/

/-- Slot-filling loop of transcribe_chunks_parallel: each completed future
(chunk index i, text f i) is written into slot i of the pre-sized list. -/
def collectTranscripts (n : ℕ) (f : ℕ → String) (completionOrder : List ℕ) :
    List (Option String) :=
  completionOrder.foldl (fun slots i => slots.set i (some (f i))) (List.replicate n none)

/-- Reading the filled slot list back as plain strings; Python would fail on
a None slot, modelled by returning none. -/
def readSlots : List (Option String) → Option (List String)
  | [] => some []
  | none :: _ => none
  | some s :: rest => (readSlots rest).map (fun l => s :: l)

/-- merge_overlapping_transcripts: join with single spaces, no
de-duplication of the overlap regions. -/
def merge_overlapping_transcripts (transcripts : List String) : String :=
  String.intercalate " " transcripts

/-! ## Collection provisioning (VectorStoreService._get_or_create_collection)

The source decorates the method with
  retry(stop=stop_after_attempt(3),
        wait=wait_exponential(multiplier=1, min=2, max=10),
        retry=retry_if_exception_type(httpx.HTTPError))
while the body catches httpx.HTTPError and re-raises it as CollectionError,
and catches every other exception as CollectionError as well; so the only
exception kinds escaping one attempt of the body are CollectionError.
-/

/-- Outcome of one HTTP call as seen by the body: either the transport layer
raises httpx.HTTPError, or a response arrives with a status code and, when
its JSON body parses and carries an id, that collection id. -/
inductive HttpCallResult where
  | transportFailure
  | response (status : ℕ) (idVal : Option String)

/-- Exception kinds that can escape one attempt of the decorated body. -/
inductive AttemptErr where
  | httpErr
  | collectionErr
deriving DecidableEq

/-- Oracle for the remote store: the outcome of the GET and of the POST on
each attempt number. -/
structure CollectionEnv where
  getCall : ℕ → HttpCallResult
  createCall : ℕ → HttpCallResult

/-- One attempt of the body of _get_or_create_collection: GET the collection
by name; on 200 read its id; otherwise POST to create it and on 200/201 read
the id; every failure (transport failure, malformed JSON, non-success
status) leaves the body as a CollectionError. -/
def get_or_create_body (env : CollectionEnv) (k : ℕ) : Except AttemptErr String :=
  match env.getCall k with
  | .transportFailure => .error .collectionErr
  | .response status idVal =>
    if status = 200 then
      match idVal with
      | some cid => .ok cid
      | none => .error .collectionErr
    else
      match env.createCall k with
      | .transportFailure => .error .collectionErr
      | .response cstatus cidVal =>
        if cstatus = 200 ∨ cstatus = 201 then
          match cidVal with
          | some cid => .ok cid
          | none => .error .collectionErr
        else .error .collectionErr

/-- retry_if_exception_type(httpx.HTTPError): only httpx.HTTPError is
retryable. -/
def isRetryableHttp (e : AttemptErr) : Bool :=
  match e with
  | .httpErr => true
  | .collectionErr => false

/-- tenacity retry loop: run the body; a retryable error with attempts left
retries, anything else is returned.  Returns the result together with the
number of attempts actually made. -/
def tenacityLoop (body : ℕ → Except AttemptErr String)
    (isRetryable : AttemptErr → Bool) : ℕ → ℕ → Except AttemptErr String × ℕ
  | 0, k => (body k, k)
  | 1, k => (body k, k)
  | r + 2, k =>
    match body k with
    | .ok v => (.ok v, k)
    | .error e =>
      if isRetryable e then tenacityLoop body isRetryable (r + 1) (k + 1)
      else (.error e, k)

/-- The decorated _get_or_create_collection: stop_after_attempt(3), retry
only on httpx.HTTPError. -/
def _get_or_create_collection (env : CollectionEnv) : Except AttemptErr String × ℕ :=
  tenacityLoop (get_or_create_body env) isRetryableHttp 3 1

/-- Environment in which every call fails at the transport level (a
transient transport failure on each attempt). -/
def transientFailureEnv : CollectionEnv :=
  { getCall := fun _ => .transportFailure, createCall := fun _ => .transportFailure }

/-! ## User-id sanitization (VectorStoreService._sanitize_user_id)

The Python source is
  if not user_id or not user_id.strip(): raise ValueError
  safe_id = "".join(c if c.isalnum() or c in "-_" else "_" for c in user_id)
  safe_id = safe_id[:100]
  if not safe_id: raise ValueError
Strings are modelled as lists of characters; str.isalnum is modelled on the
ASCII fragment by Char.isAlphanum and str.strip by whitespace testing.
-/

/-- Per-character test of the sanitizer: alphanumeric, dash or underscore. -/
def allowedChar (c : Char) : Bool := c.isAlphanum || c = '-' || c = '_'

/-- Per-character action of the generator expression: keep an allowed
character, replace anything else by an underscore. -/
def sanitizeChar (c : Char) : Char := if allowedChar c then c else '_'

/-- The sanitizer itself; Except.error models the raised ValueError. -/
def _sanitize_user_id (user_id : List Char) : Except String (List Char) :=
  if user_id.isEmpty || user_id.all Char.isWhitespace then
    .error "user_id cannot be empty"
  else
    let safe_id := user_id.map sanitizeChar
    let safe_id := safe_id.take 100
    if safe_id.isEmpty then .error "user_id contains no valid characters"
    else .ok safe_id

/-- The operation the claim describes instead: strip the id to the allowed
characters (dropping the rest), capped at 100 characters. -/
def claimed_strip_sanitize (user_id : List Char) : List Char :=
  (user_id.filter allowedChar).take 100

/-! ## Document preparation (VectorStoreService._prepare_documents)

The transcript chunk list is the output of the external langchain
RecursiveCharacterTextSplitter and is taken as a parameter.  add_doc appends
content, a metadata dict with meeting_id, type and (for positional kinds)
the stringified chunk_index, and the deterministic id.
-/

/-- Metadata attached to one fragment, mirroring the dict built by add_doc;
chunk_index is the stringified index when the fragment kind is positional. -/
structure Metadata where
  meeting_id : String
  dtype : String
  chunk_index : Option String
deriving DecidableEq

/-- Deterministic fragment identifier: meeting id, kind and, for positional
kinds, the index, joined by underscores. -/
def doc_id (meeting_id doc_type : String) (index : Option ℕ) : String :=
  meeting_id ++ "_" ++ doc_type ++
    (match index with
     | some i => "_" ++ toString i
     | none => "")

/-- One add_doc call: the appended (document, metadata, id) triple. -/
def add_doc (meeting_id content doc_type : String) (index : Option ℕ) :
    String × Metadata × String :=
  (content,
   { meeting_id := meeting_id, dtype := doc_type, chunk_index := index.map toString },
   doc_id meeting_id doc_type index)

/-- add_doc applied to every element of one positional list, the indices
counted from s (the source enumerates from 0). -/
def kindEntriesFrom (meeting_id doc_type : String) :
    ℕ → List String → List (String × Metadata × String)
  | _, [] => []
  | s, item :: rest =>
      add_doc meeting_id item doc_type (some s) ::
        kindEntriesFrom meeting_id doc_type (s + 1) rest

/-- _prepare_documents: transcript chunks (positional), the summary
(unindexed), then decisions, action items and key points (positional). -/
def _prepare_documents (meeting_id : String) (transcript_chunks : List String)
    (summary : String) (decisions action_items key_points : List String) :
    List String × List Metadata × List String :=
  let entries :=
    kindEntriesFrom meeting_id DOC_TYPE_TRANSCRIPT 0 transcript_chunks
      ++ [add_doc meeting_id summary DOC_TYPE_SUMMARY none]
      ++ kindEntriesFrom meeting_id DOC_TYPE_DECISION 0 decisions
      ++ kindEntriesFrom meeting_id DOC_TYPE_ACTION_ITEM 0 action_items
      ++ kindEntriesFrom meeting_id DOC_TYPE_KEY_POINT 0 key_points
  (entries.map (fun e => e.1), entries.map (fun e => e.2.1), entries.map (fun e => e.2.2))

/-! ## Meeting indexing (VectorStoreService.index_meeting)

The oracle carries the outcome of collection provisioning, of the single
batch embedding call, and the HTTP status of the single batched add POST.
The model returns the raised error kind (or success) together with the list
of id batches actually posted to the store, so that "no document was
written" is visible as an empty write trace.
-/

/-- Error kinds of the vector-store service (app/exceptions.py):
CollectionError, EmbeddingError and VectorStoreError are distinct exception
classes. -/
inductive VsErr where
  | collectionFailure
  | embeddingFailure
  | storeWriteFailure
deriving DecidableEq

/-- Oracle for one run of index_meeting. -/
structure IndexEnv where
  collectionOutcome : Except Unit String
  embedOutcome : List String → Except Unit (List (List ℚ))
  addStatus : ℕ

/-- index_meeting: provision the collection, prepare the documents, embed
the whole document batch in one call, then issue the one batched add POST;
a non-success status of the add raises VectorStoreError. -/
def index_meeting (env : IndexEnv) (meeting_id : String)
    (transcript_chunks : List String) (summary : String)
    (decisions action_items key_points : List String) :
    Except VsErr Unit × List (List String) :=
  match env.collectionOutcome with
  | .error _ => (.error .collectionFailure, [])
  | .ok _cid =>
    let prepared := _prepare_documents meeting_id transcript_chunks summary
      decisions action_items key_points
    match env.embedOutcome prepared.1 with
    | .error _ => (.error .embeddingFailure, [])
    | .ok _vectors =>
      if env.addStatus = 200 ∨ env.addStatus = 201 then (.ok (), [prepared.2.2])
      else (.error .storeWriteFailure, [prepared.2.2])

/-- Concrete oracle whose embedding call fails. -/
def embedFailEnv : IndexEnv :=
  { collectionOutcome := .ok "c1", embedOutcome := fun _ => .error (), addStatus := 200 }

/-- Concrete oracle whose embedding call succeeds and whose batched add
returns status 500. -/
def addFailEnv : IndexEnv :=
  { collectionOutcome := .ok "c1", embedOutcome := fun docs => .ok (docs.map fun _ => [0]),
    addStatus := 500 }

/-! ## Search (VectorStoreService.search and _format_search_results) -/

/-- Raw JSON body of a Chroma query response: per-query lists of ids,
documents and metadatas; the distances key may be absent (a missing ids key
behaves like an empty list and is modelled by ids = []). -/
structure RawQueryResults where
  ids : List (List String)
  documents : List (List String)
  metadatas : List (List Metadata)
  distances : Option (List (List ℚ))

/-- One formatted search result dict. -/
structure SearchDoc where
  content : String
  metadata : Metadata
  distance : ℚ
deriving DecidableEq

/-- _format_search_results: when the first id list is nonempty, iterate i
over its indices reading documents[0][i], metadatas[0][i] and
distances[0][i], the distances key defaulting to the one-element [[0]];
every list access is partial, a failing one modelling the Python
IndexError (none). -/
def _format_search_results (results : RawQueryResults) : Option (List SearchDoc) :=
  match results.ids.head? with
  | none => some []
  | some ids0 =>
    if ids0.length = 0 then some []
    else
      (List.range ids0.length).mapM (fun i => do
        let docs0 ← results.documents[0]?
        let content ← docs0[i]?
        let metas0 ← results.metadatas[0]?
        let meta ← metas0[i]?
        let dists0 ← (results.distances.getD [[0]])[0]?
        let dist ← dists0[i]?
        pure (SearchDoc.mk content meta dist))

/-- Oracle for one run of search: status of the GET on the collection, the
query-embedding outcome, the status of the query POST and its body. -/
structure SearchEnv where
  getStatus : ℕ
  embedOutcome : Except Unit (List ℚ)
  queryStatus : ℕ
  queryRaw : RawQueryResults

/-- search: a non-200 collection GET yields an empty result list; a failing
query embedding raises EmbeddingError, which the catch-all re-raises; a
non-200 query POST yields an empty result list; an exception raised inside
result formatting is swallowed by the catch-all, yielding an empty result
list as well. -/
def search (env : SearchEnv) : Except VsErr (List SearchDoc) :=
  if env.getStatus ≠ 200 then .ok []
  else
    match env.embedOutcome with
    | .error _ => .error .embeddingFailure
    | .ok _qvec =>
      if env.queryStatus ≠ 200 then .ok []
      else
        match _format_search_results env.queryRaw with
        | some docs => .ok docs
        | none => .ok []

/-- Empty query response body. -/
def emptyRaw : RawQueryResults := RawQueryResults.mk [] [] [] none

/-! ## Context snippets (RAGService._format_context_snippets) -/

/-- One retrieved document as consumed by the RAG layer: content, the
metadata type key (possibly absent), the meeting id, and the distance key
(possibly absent). -/
structure CtxDoc where
  content : List Char
  dtypeField : Option String
  meeting_id : String
  distanceField : Option ℚ

/-- One display snippet returned by _format_context_snippets. -/
structure Snippet where
  dtype : String
  meeting_id : String
  snippet : List Char
  relevance_score : ℚ
deriving DecidableEq

/-- _format_context_snippets: only the first MAX_CONTEXT_SNIPPETS documents,
each content truncated to MAX_SNIPPET_LENGTH characters with an ellipsis
appended when it was longer, and relevance score 1 - distance with a
missing distance key defaulting to 0; no clamping is applied. -/
def _format_context_snippets (context_docs : List CtxDoc) : List Snippet :=
  (context_docs.take MAX_CONTEXT_SNIPPETS).map fun doc =>
    let snippet := doc.content
    let snippet := if MAX_SNIPPET_LENGTH < snippet.length
      then snippet.take MAX_SNIPPET_LENGTH ++ ['.', '.', '.']
      else snippet
    Snippet.mk (doc.dtypeField.getD "unknown") doc.meeting_id snippet
      (1 - doc.distanceField.getD 0)

/-- View of a formatted search result as the dict the RAG layer consumes:
its metadata type key and its distance key are both present. -/
def toCtxDoc (d : SearchDoc) : CtxDoc :=
  CtxDoc.mk d.content.toList (some d.metadata.dtype) d.metadata.meeting_id (some d.distance)

/-- Query response with two matches and no distances key. -/
def twoMatchesNoDistances : RawQueryResults :=
  RawQueryResults.mk [["id0", "id1"]] [["content0", "content1"]]
    [[Metadata.mk "m1" "summary" none, Metadata.mk "m1" "decision" none]] none

/-! ## Temporary chunk files (WhisperService.split_audio_with_ffmpeg loop
and WhisperService.transcribe_audio cleanup)

Temp files are identified by their chunk index.  The split loop creates the
temp file, runs ffmpeg (subprocess.run with timeout=60), and on success
checks the 25 MB ceiling.  Its except clause catches only
subprocess.CalledProcessError; subprocess.TimeoutExpired propagates without
any cleanup.  The finally block of transcribe_audio deletes exactly the
files recorded in its local chunk_paths variable, which is still the empty
list whenever split_audio_with_ffmpeg raised.
-/

/-- Outcome of one ffmpeg extraction subprocess. -/
inductive FfmpegResult where
  | success (chunkSize : ℕ)
  | procFailure
  | timeoutHit

/-- Exit kind of the split loop. -/
inductive SplitExit where
  | finished (chunk_paths : List ℕ)
  | tooLarge
  | procAbort
  | uncaughtTimeout
deriving DecidableEq

/-- The chunk-extraction loop, tracking the exit kind and the temp files on
disk when the loop exits: a size violation or a CalledProcessError removes
every file created in this call; a TimeoutExpired leaves them all. -/
def splitGo (ffmpeg : ℕ → FfmpegResult) : List ℕ → List ℕ → SplitExit × List ℕ
  | [], acc => (.finished acc, acc)
  | i :: rest, acc =>
    match ffmpeg i with
    | .success size =>
      if MAX_FILE_SIZE < size then (.tooLarge, [])
      else splitGo ffmpeg rest (acc ++ [i])
    | .procFailure => (.procAbort, [])
    | .timeoutHit => (.uncaughtTimeout, acc ++ [i])

/-- split_audio_with_ffmpeg as a file-state transformer over the chunk
schedule of numChunks. -/
def split_audio_files (duration_seconds : ℚ) (ffmpeg : ℕ → FfmpegResult) :
    SplitExit × List ℕ :=
  splitGo ffmpeg (List.range (numChunks duration_seconds)) []

/-- Exit kind of transcribe_audio on the chunked path. -/
inductive AudioExit where
  | transcriptReady
  | httpFailure
deriving DecidableEq

/-- The finally block: delete exactly the files held by the local
chunk_paths list. -/
def runCleanup (chunk_paths disk : List ℕ) : List ℕ :=
  disk.filter (fun p => !(chunk_paths.contains p))

/-- Continuation of transcribe_audio after the split: a finished split is
followed by parallel transcription and merge (a failing chunk turning the
whole call into an HTTP failure) with the finally block deleting the paths
held in chunk_paths; a raising split propagates the failure with the
finally block holding an empty chunk_paths list. -/
def afterSplit (transcriptionFails : Bool) : SplitExit × List ℕ → AudioExit × List ℕ
  | (.finished paths, disk) =>
    ((if transcriptionFails then .httpFailure else .transcriptReady),
     runCleanup paths disk)
  | (_, disk) => (.httpFailure, runCleanup [] disk)

/-- transcribe_audio, chunked path: split, then the continuation; the
finally block runs on every exit.  Returns the exit kind together with the
temp chunk files still on disk when control returns to the caller. -/
def transcribe_audio_chunked (duration_seconds : ℚ) (ffmpeg : ℕ → FfmpegResult)
    (transcriptionFails : Bool) : AudioExit × List ℕ :=
  afterSplit transcriptionFails (split_audio_files duration_seconds ffmpeg)

/-- ffmpeg oracle: chunk 0 extracts a small chunk, every later chunk hits
the 60 s subprocess timeout. -/
def timeoutOracle : ℕ → FfmpegResult :=
  fun i => if i = 0 then .success 1000 else .timeoutHit

/-- ffmpeg oracle: every chunk extracts a small chunk. -/
def okOracle : ℕ → FfmpegResult := fun _ => .success 1000

/-! ## Theorems settling the claims -/

theorem numChunks_600 : numChunks 600 = 2 := by
  have h1 : ((600 : ℚ) - OVERLAP_SECONDS) / effective_chunk_duration = 1 := by
    norm_num [OVERLAP_SECONDS, effective_chunk_duration, CHUNK_DURATION_SECONDS]
  rw [numChunks, h1]
  norm_num [pyInt]
  rfl

theorem numChunks_1500 : numChunks 1500 = 3 := by
  have h1 : ((1500 : ℚ) - OVERLAP_SECONDS) / effective_chunk_duration = 149 / 59 := by
    norm_num [OVERLAP_SECONDS, effective_chunk_duration, CHUNK_DURATION_SECONDS]
  have h2 : ⌊(149 / 59 : ℚ)⌋ = 2 := by
    rw [Int.floor_eq_iff]
    norm_num
  rw [numChunks, h1]
  rw [pyInt, if_pos (by norm_num), h2]
  rfl

/-- C1: the claim asserts chunk count = max(1, ceil((D - overlap) / stride));
at D = 600 the claimed formula yields 1 chunk, but the code (which uses
truncation plus one) produces 2, so the claim as stated is false. -/
theorem C1_ceil_formula_counterexample :
    (split_audio_with_ffmpeg 600).length = 2 ∧
    max 1 ⌈((600 : ℚ) - OVERLAP_SECONDS) / effective_chunk_duration⌉ = 1 ∧
    (2 : ℤ) ≠ 1 := by
  refine ⟨?_, ?_, by decide⟩
  · simp [split_audio_with_ffmpeg, numChunks_600]
  · have h1 : ((600 : ℚ) - OVERLAP_SECONDS) / effective_chunk_duration = 1 := by
      norm_num [OVERLAP_SECONDS, effective_chunk_duration, CHUNK_DURATION_SECONDS]
    rw [h1]
    norm_num

/-- C1 (amended): split_audio_with_ffmpeg produces exactly
max(1, trunc((D - 10) / 590) + 1) chunks, trunc truncating toward zero
(this equals max(1, ceil((D - 10) / 590)) except when D - 10 is a positive
exact multiple of 590, where one extra chunk appears); chunk i starts at
i * 590 with duration min(600, D - i * 590); for D = 1500 the schedule is
three chunks covering [0,600), [590,1190) and [1180,1500). -/
theorem C1_chunk_schedule_amended (D : ℚ) :
    (split_audio_with_ffmpeg D).length = (max 1 (pyInt ((D - 10) / 590) + 1)).toNat ∧
    (∀ i, ∀ h : i < (split_audio_with_ffmpeg D).length,
      (split_audio_with_ffmpeg D).get ⟨i, h⟩ =
        ((i : ℚ) * 590, min 600 (D - (i : ℚ) * 590))) ∧
    split_audio_with_ffmpeg 1500 = [(0, 600), (590, 600), (1180, 320)] := by
  have hc : effective_chunk_duration = 590 := by
    norm_num [effective_chunk_duration, CHUNK_DURATION_SECONDS, OVERLAP_SECONDS]
  have hstart : ∀ i : ℕ, chunkStart i = (i : ℚ) * 590 := by
    intro i
    rcases Nat.eq_zero_or_pos i with h0 | _
    · simp [chunkStart, h0]
    · simp [chunkStart, hc]
  refine ⟨?_, ?_, ?_⟩
  · simp [split_audio_with_ffmpeg, numChunks, OVERLAP_SECONDS, hc]
  · intro i h
    simp only [split_audio_with_ffmpeg, List.get_eq_getElem, List.getElem_map,
      List.getElem_range]
    rw [hstart]
    norm_num [CHUNK_DURATION_SECONDS]
  · rw [split_audio_with_ffmpeg, numChunks_1500]
    have hr : List.range 3 = [0, 1, 2] := by decide
    rw [hr]
    simp only [List.map_cons, List.map_nil, hstart]
    norm_num [CHUNK_DURATION_SECONDS, min_def]

/-- C1 witness: the amended theorem instantiated at D = 1500 and i = 1; the
schedule has 3 chunks and chunk 1 covers [590, 1190). -/
theorem C1_chunk_schedule_witness :
    (split_audio_with_ffmpeg 1500)[1]? =
      some ((1 : ℚ) * 590, min 600 (1500 - (1 : ℚ) * 590)) := by
  have h : 1 < (split_audio_with_ffmpeg 1500).length := by
    simp [split_audio_with_ffmpeg, numChunks_1500]
  rw [List.getElem?_eq_getElem h]
  exact congrArg some ((C1_chunk_schedule_amended 1500).2.1 1 h)

theorem collectTranscripts_foldl (f : ℕ → String) :
    ∀ (order : List ℕ) (slots : List (Option String)) (j : ℕ),
      (order.foldl (fun s i => s.set i (some (f i))) slots)[j]? =
        if j ∈ order ∧ j < slots.length then some (some (f j)) else slots[j]? := by
  intro order
  induction order with
  | nil => intro slots j; simp
  | cons i rest ih =>
    intro slots j
    rw [List.foldl_cons, ih]
    by_cases hr : j ∈ rest ∧ j < slots.length
    · rw [if_pos (by simpa using hr), if_pos ⟨List.mem_cons_of_mem i hr.1, hr.2⟩]
    · rw [if_neg (by simpa using hr)]
      rw [List.getElem?_set]
      by_cases hij : i = j
      · subst hij
        by_cases hlen : i < slots.length
        · rw [if_pos rfl, if_pos hlen, if_pos ⟨List.mem_cons_self i rest, hlen⟩]
        · rw [if_pos rfl, if_neg hlen, if_neg (fun hc => hlen hc.2),
            List.getElem?_eq_none (by omega)]
      · rw [if_neg hij]
        by_cases hjrest : j ∈ rest
        · have : ¬ j < slots.length := fun hlt => hr ⟨hjrest, hlt⟩
          rw [if_neg (fun hc => this hc.2)]
        · rw [if_neg (fun hc => by
            rcases List.mem_cons.mp hc.1 with h | h
            · exact hij h.symm
            · exact hjrest h)]

theorem collectTranscripts_eq (n : ℕ) (f : ℕ → String) (order : List ℕ)
    (hperm : order.Perm (List.range n)) :
    collectTranscripts n f order = (List.range n).map (fun i => some (f i)) := by
  apply List.ext_getElem?
  intro j
  rw [collectTranscripts, collectTranscripts_foldl]
  have hmem : j ∈ order ↔ j < n := by
    rw [hperm.mem_iff, List.mem_range]
  by_cases hj : j < n
  · rw [if_pos ⟨hmem.mpr hj, by simpa using hj⟩,
      List.getElem?_map, List.getElem?_range hj]
    rfl
  · rw [if_neg (fun hc => hj (hmem.mp hc.1)),
      List.getElem?_eq_none (by simpa using Nat.le_of_not_lt hj),
      List.getElem?_eq_none (by simpa using Nat.le_of_not_lt hj)]

theorem readSlots_map_some (l : List String) :
    readSlots (l.map (fun s => some s)) = some l := by
  induction l with
  | nil => rfl
  | cons a rest ih => simp [readSlots, ih]

/-- C2: for any number of chunks, any per-chunk transcripts and any worker
completion order (a permutation of the chunk indices), the slot-indexed
collection yields the transcripts in original chunk-index order, and
merge_overlapping_transcripts joins them with single spaces; no completion
order changes the result. -/
theorem C2_order_preserving_reassembly (n : ℕ) (f : ℕ → String) (order : List ℕ)
    (hperm : order.Perm (List.range n)) :
    (readSlots (collectTranscripts n f order)).map merge_overlapping_transcripts =
      some (String.intercalate " " ((List.range n).map f)) := by
  rw [collectTranscripts_eq n f order hperm]
  have : (List.range n).map (fun i => some (f i)) =
      ((List.range n).map f).map (fun s => some s) := by
    rw [List.map_map]; rfl
  rw [this, readSlots_map_some]
  rfl

/-- C2 witness: chunks [A, B, C] whose workers complete in the order
C, A, B still produce the transcript A, then B, then C, space-joined. -/
theorem C2_order_preserving_reassembly_witness :
    (readSlots (collectTranscripts 3 (fun i => ["A", "B", "C"].getD i "") [2, 0, 1])).map
        merge_overlapping_transcripts =
      some (String.intercalate " " ((List.range 3).map (fun i => ["A", "B", "C"].getD i ""))) :=
  C2_order_preserving_reassembly 3 (fun i => ["A", "B", "C"].getD i "") [2, 0, 1] (by decide)

theorem get_or_create_body_no_httpErr (env : CollectionEnv) (k : ℕ) (e : AttemptErr)
    (h : get_or_create_body env k = .error e) : e = .collectionErr := by
  rw [get_or_create_body] at h
  cases hg : env.getCall k with
  | transportFailure =>
    rw [hg] at h
    dsimp only at h
    cases h
    rfl
  | response status idVal =>
    rw [hg] at h
    dsimp only at h
    by_cases hs : status = 200
    · rw [if_pos hs] at h
      cases idVal with
      | some cid => cases h
      | none => cases h; rfl
    · rw [if_neg hs] at h
      cases hc : env.createCall k with
      | transportFailure => rw [hc] at h; dsimp only at h; cases h; rfl
      | response cstatus cidVal =>
        rw [hc] at h
        dsimp only at h
        by_cases hcs : cstatus = 200 ∨ cstatus = 201
        · rw [if_pos hcs] at h
          cases cidVal with
          | some cid => cases h
          | none => cases h; rfl
        · rw [if_neg hcs] at h
          cases h
          rfl

/-- C3: the claim says a transient transport failure is retried up to 3
times with backoff.  In the code the body converts every httpx.HTTPError
into CollectionError before the tenacity predicate
retry_if_exception_type(httpx.HTTPError) can see it, so no failure is ever
retried: every run of _get_or_create_collection makes exactly one attempt,
and under persistent transport failure it raises CollectionError after that
single attempt. -/
theorem C3_retry_never_fires :
    (∀ env : CollectionEnv, (_get_or_create_collection env).2 = 1) ∧
    _get_or_create_collection transientFailureEnv = (.error .collectionErr, 1) ∧
    AttemptErr.collectionErr ≠ AttemptErr.httpErr := by
  have key : ∀ env : CollectionEnv,
      _get_or_create_collection env = (get_or_create_body env 1, 1) := by
    intro env
    rw [_get_or_create_collection, tenacityLoop]
    cases hb : get_or_create_body env 1 with
    | ok v => rfl
    | error e =>
      have he : e = .collectionErr := get_or_create_body_no_httpErr env 1 e hb
      subst he
      rfl
  refine ⟨fun env => by rw [key env], ?_, by decide⟩
  rw [key transientFailureEnv]
  rfl

/-- C4: the claim says sanitization strips the id to [A-Za-z0-9_-]; the code
instead replaces each disallowed character with an underscore, so on the
input a.b the code keeps three characters a_b while the claimed stripping
would keep the two characters ab. -/
theorem C4_strip_counterexample :
    _sanitize_user_id "a.b".toList = .ok "a_b".toList ∧
    claimed_strip_sanitize "a.b".toList = "ab".toList ∧
    "a_b".toList ≠ "ab".toList := by
  exact ⟨rfl, by decide, by decide⟩

/-- C4 (amended): _sanitize_user_id replaces every character outside
[alphanumeric, dash, underscore] with an underscore (rather than stripping
it), caps the result at 100 characters, and raises a validation failure
exactly when the input is empty or all-whitespace; for every accepted input
the result is nonempty (so the post-sanitization emptiness check in the
source is unreachable), has length at most 100 and contains only allowed
characters. -/
theorem C4_sanitize_amended (user_id : List Char)
    (h : ¬ (user_id.isEmpty || user_id.all Char.isWhitespace) = true) :
    _sanitize_user_id user_id = .ok ((user_id.map sanitizeChar).take 100) ∧
    (user_id.map sanitizeChar).take 100 ≠ [] ∧
    ((user_id.map sanitizeChar).take 100).length ≤ 100 ∧
    ∀ c ∈ (user_id.map sanitizeChar).take 100, allowedChar c = true := by
  have hne : user_id ≠ [] := by
    intro hnil
    exact h (by simp [hnil])
  have hlen : 0 < user_id.length := List.length_pos.mpr hne
  have htake_ne : (user_id.map sanitizeChar).take 100 ≠ [] := by
    intro hnil
    have := congrArg List.length hnil
    simp only [List.length_take, List.length_map, List.length_nil] at this
    omega
  refine ⟨?_, htake_ne, by simp [List.length_take], ?_⟩
  · rw [_sanitize_user_id, if_neg h, if_neg (by simpa [List.isEmpty_iff] using htake_ne)]
  · intro c hc
    have hc' : c ∈ user_id.map sanitizeChar := List.mem_of_mem_take hc
    rcases List.mem_map.mp hc' with ⟨c0, _, hc0⟩
    subst hc0
    rw [sanitizeChar]
    by_cases ha : allowedChar c0 = true
    · rwa [if_pos ha]
    · rw [if_neg ha]
      decide

/-- C4 witness: the amended theorem applied to the input a.b, whose
emptiness guard is discharged concretely. -/
theorem C4_sanitize_witness :
    _sanitize_user_id "a.b".toList = .ok (("a.b".toList.map sanitizeChar).take 100) :=
  (C4_sanitize_amended "a.b".toList (by decide)).1

theorem kindEntriesFrom_map_fst (meeting_id doc_type : String) :
    ∀ (items : List String) (s : ℕ),
      (kindEntriesFrom meeting_id doc_type s items).map (fun e => e.1) = items := by
  intro items
  induction items with
  | nil => intro s; rfl
  | cons a rest ih =>
    intro s
    rw [kindEntriesFrom, List.map_cons, ih (s + 1)]
    rfl

theorem kindEntriesFrom_map_ids (meeting_id doc_type : String) :
    ∀ (items : List String) (s : ℕ),
      (kindEntriesFrom meeting_id doc_type s items).map (fun e => e.2.2) =
        (List.range items.length).map
          (fun i => meeting_id ++ "_" ++ doc_type ++ "_" ++ toString (s + i)) := by
  intro items
  induction items with
  | nil => intro s; rfl
  | cons a rest ih =>
    intro s
    rw [kindEntriesFrom, List.map_cons, ih (s + 1), List.length_cons,
      List.range_succ_eq_map, List.map_cons, List.map_map]
    have h0 : s + 0 = s := by omega
    have hfun : ((fun i => meeting_id ++ "_" ++ doc_type ++ "_" ++ toString (s + i)) ∘
        Nat.succ) = fun i => meeting_id ++ "_" ++ doc_type ++ "_" ++ toString (s + 1 + i) := by
      funext i
      simp only [Function.comp_apply]
      rw [show s + Nat.succ i = s + 1 + i from by omega]
    rw [h0, hfun]
    congr 1
    rw [add_doc, doc_id]
    simp [String.append_assoc]

theorem kindEntriesFrom_map_meta (meeting_id doc_type : String) :
    ∀ (items : List String) (s : ℕ),
      (kindEntriesFrom meeting_id doc_type s items).map (fun e => e.2.1) =
        (List.range items.length).map
          (fun i => Metadata.mk meeting_id doc_type (some (toString (s + i)))) := by
  intro items
  induction items with
  | nil => intro s; rfl
  | cons a rest ih =>
    intro s
    rw [kindEntriesFrom, List.map_cons, ih (s + 1), List.length_cons,
      List.range_succ_eq_map, List.map_cons, List.map_map]
    have h0 : s + 0 = s := by omega
    have hfun : ((fun i => Metadata.mk meeting_id doc_type (some (toString (s + i)))) ∘
        Nat.succ) = fun i => Metadata.mk meeting_id doc_type (some (toString (s + 1 + i))) := by
      funext i
      simp only [Function.comp_apply]
      rw [show s + Nat.succ i = s + 1 + i from by omega]
    rw [h0, hfun]
    rfl

theorem kindEntries0_map_ids (meeting_id doc_type : String) (items : List String) :
    (kindEntriesFrom meeting_id doc_type 0 items).map (fun e => e.2.2) =
      (List.range items.length).map
        (fun i => meeting_id ++ "_" ++ doc_type ++ "_" ++ toString i) := by
  rw [kindEntriesFrom_map_ids]
  apply List.map_congr_left
  intro i _
  rw [Nat.zero_add]

theorem kindEntries0_map_meta (meeting_id doc_type : String) (items : List String) :
    (kindEntriesFrom meeting_id doc_type 0 items).map (fun e => e.2.1) =
      (List.range items.length).map
        (fun i => Metadata.mk meeting_id doc_type (some (toString i))) := by
  rw [kindEntriesFrom_map_meta]
  apply List.map_congr_left
  intro i _
  rw [Nat.zero_add]

/-- C7: indexing with empty decisions, action items and key points produces
documents only for the transcript chunks and the summary (in that order,
with matching metadata), and for every input the fragment ids are the
deterministic composites meetingId_kind_index for positional kinds and
meetingId_kind for the summary. -/
theorem C7_fragment_ids (meeting_id summary : String)
    (transcript_chunks decisions action_items key_points : List String) :
    ((_prepare_documents meeting_id transcript_chunks summary [] [] []).1 =
        transcript_chunks ++ [summary]) ∧
    ((_prepare_documents meeting_id transcript_chunks summary [] [] []).2.1 =
        (List.range transcript_chunks.length).map
          (fun i => Metadata.mk meeting_id DOC_TYPE_TRANSCRIPT (some (toString i)))
          ++ [Metadata.mk meeting_id DOC_TYPE_SUMMARY none]) ∧
    ((_prepare_documents meeting_id transcript_chunks summary
        decisions action_items key_points).2.2 =
      (List.range transcript_chunks.length).map
        (fun i => meeting_id ++ "_" ++ DOC_TYPE_TRANSCRIPT ++ "_" ++ toString i)
        ++ [meeting_id ++ "_" ++ DOC_TYPE_SUMMARY]
        ++ (List.range decisions.length).map
            (fun i => meeting_id ++ "_" ++ DOC_TYPE_DECISION ++ "_" ++ toString i)
        ++ (List.range action_items.length).map
            (fun i => meeting_id ++ "_" ++ DOC_TYPE_ACTION_ITEM ++ "_" ++ toString i)
        ++ (List.range key_points.length).map
            (fun i => meeting_id ++ "_" ++ DOC_TYPE_KEY_POINT ++ "_" ++ toString i)) := by
  refine ⟨?_, ?_, ?_⟩
  · simp [_prepare_documents, kindEntriesFrom_map_fst, add_doc]
  · simp [_prepare_documents, kindEntries0_map_meta, add_doc]
  · simp [_prepare_documents, kindEntries0_map_ids, add_doc, doc_id]

/-- C5: embeddings for the whole batch are computed in one call before any
write, so when the embedding call fails the run aborts with EmbeddingError
and the write trace is empty; when the embedding call succeeds and the
batched add returns a non-success status the run raises VectorStoreError
after exactly that one batched write attempt; the two error kinds are
distinct. -/
theorem C5_embedding_before_write (env : IndexEnv) (meeting_id : String)
    (transcript_chunks : List String) (summary : String)
    (decisions action_items key_points : List String)
    (hcol : ∃ cid, env.collectionOutcome = .ok cid) :
    (∀ e, env.embedOutcome (_prepare_documents meeting_id transcript_chunks summary
          decisions action_items key_points).1 = .error e →
        index_meeting env meeting_id transcript_chunks summary
          decisions action_items key_points = (.error .embeddingFailure, [])) ∧
    (∀ v, env.embedOutcome (_prepare_documents meeting_id transcript_chunks summary
          decisions action_items key_points).1 = .ok v →
        ¬ (env.addStatus = 200 ∨ env.addStatus = 201) →
        index_meeting env meeting_id transcript_chunks summary
          decisions action_items key_points =
          (.error .storeWriteFailure,
           [(_prepare_documents meeting_id transcript_chunks summary
              decisions action_items key_points).2.2])) ∧
    VsErr.embeddingFailure ≠ VsErr.storeWriteFailure := by
  obtain ⟨cid, hcid⟩ := hcol
  refine ⟨?_, ?_, by decide⟩
  · intro e he
    rw [index_meeting, hcid]
    dsimp only
    rw [he]
  · intro v hv hstatus
    rw [index_meeting, hcid]
    dsimp only
    rw [hv, if_neg hstatus]

/-- C5 witness: under the failing-embedding oracle the run aborts with
EmbeddingError and writes nothing; under the failing-add oracle it raises
VectorStoreError after the single batched write attempt. -/
theorem C5_embedding_before_write_witness :
    index_meeting embedFailEnv "m1" ["t0"] "s" [] [] [] =
      (.error .embeddingFailure, []) ∧
    index_meeting addFailEnv "m1" ["t0"] "s" [] [] [] =
      (.error .storeWriteFailure, [(_prepare_documents "m1" ["t0"] "s" [] [] []).2.2]) :=
  ⟨(C5_embedding_before_write embedFailEnv "m1" ["t0"] "s" [] [] []
      ⟨"c1", rfl⟩).1 () rfl,
   (C5_embedding_before_write addFailEnv "m1" ["t0"] "s" [] [] []
      ⟨"c1", rfl⟩).2.1 _ rfl (by decide)⟩

/-- C6: a user without an existing collection (non-200 GET) gets an empty
result list, not an error; a failing query embedding surfaces as the
distinct EmbeddingError kind; a failing search call after a successful
embedding degrades to an empty result list instead of propagating. -/
theorem C6_search_degradation (env : SearchEnv) :
    (env.getStatus ≠ 200 → search env = .ok []) ∧
    (env.getStatus = 200 → ∀ e, env.embedOutcome = .error e →
      search env = .error .embeddingFailure) ∧
    (env.getStatus = 200 → ∀ v, env.embedOutcome = .ok v → env.queryStatus ≠ 200 →
      search env = .ok []) ∧
    VsErr.embeddingFailure ≠ VsErr.storeWriteFailure ∧
    VsErr.embeddingFailure ≠ VsErr.collectionFailure := by
  refine ⟨?_, ?_, ?_, by decide, by decide⟩
  · intro h
    rw [search, if_pos h]
  · intro h e he
    rw [search, if_neg (by simpa using h), he]
  · intro h v hv hq
    rw [search, if_neg (by simpa using h), hv]
    dsimp only
    rw [if_pos hq]

/-- C6 witness: the three branches at concrete oracles: collection GET 404,
embedding failure after GET 200, query POST 500 after a successful
embedding. -/
theorem C6_search_degradation_witness :
    search (SearchEnv.mk 404 (.ok []) 200 emptyRaw) = .ok [] ∧
    search (SearchEnv.mk 200 (.error ()) 200 emptyRaw) = .error .embeddingFailure ∧
    search (SearchEnv.mk 200 (.ok [0]) 500 emptyRaw) = .ok [] :=
  ⟨(C6_search_degradation (SearchEnv.mk 404 (.ok []) 200 emptyRaw)).1 (by decide),
   (C6_search_degradation (SearchEnv.mk 200 (.error ()) 200 emptyRaw)).2.1 rfl () rfl,
   (C6_search_degradation (SearchEnv.mk 200 (.ok [0]) 500 emptyRaw)).2.2.1 rfl
     [0] rfl (by decide)⟩

/-- C8: the claim says every relevance score lies in [0,1]; the code
computes 1 - distance without clamping, so a match at distance 2 is
reported with relevance -1, outside [0,1]. -/
theorem C8_relevance_counterexample :
    (_format_context_snippets [CtxDoc.mk ['x'] (some "summary") "m1" (some 2)]).map
        (fun s => s.relevance_score) = [-1] ∧
    ¬ (0 ≤ (-1 : ℚ)) := by
  constructor
  · simp only [_format_context_snippets, MAX_CONTEXT_SNIPPETS, MAX_SNIPPET_LENGTH,
      List.take, List.map]
    norm_num
  · norm_num

/-- C8 (amended): the display snippets cover only the first 3 matches, the
i-th snippet is built from the i-th match with its text truncated to 200
characters plus an ellipsis exactly when it was longer, and its relevance
score equals 1 - distance; that score lies in [0,1] exactly when the
distance lies in [0,1] (the code applies no clamping). -/
theorem C8_snippets_amended (context_docs : List CtxDoc) :
    (_format_context_snippets context_docs).length = min 3 context_docs.length ∧
    ∀ i d, context_docs[i]? = some d → i < 3 →
      (_format_context_snippets context_docs)[i]? = some
        (Snippet.mk (d.dtypeField.getD "unknown") d.meeting_id
          (if 200 < d.content.length then d.content.take 200 ++ ['.', '.', '.']
           else d.content)
          (1 - d.distanceField.getD 0)) ∧
      (0 ≤ d.distanceField.getD 0 → d.distanceField.getD 0 ≤ 1 →
        0 ≤ 1 - d.distanceField.getD 0 ∧ 1 - d.distanceField.getD 0 ≤ 1) := by
  constructor
  · simp [_format_context_snippets, MAX_CONTEXT_SNIPPETS]
  · intro i d hd hi
    refine ⟨?_, fun h0 h1 => ⟨by linarith, by linarith⟩⟩
    rw [_format_context_snippets, List.getElem?_map, List.getElem?_take,
      if_pos (show i < MAX_CONTEXT_SNIPPETS by simpa [MAX_CONTEXT_SNIPPETS] using hi), hd]
    rfl

/-- C8 witness: one match at distance one half; the snippet formula of the
amended theorem applies and its score is one half. -/
theorem C8_snippets_witness :
    (_format_context_snippets [CtxDoc.mk ['x'] (some "summary") "m1" (some (1 / 2))])[0]? =
      some (Snippet.mk ((some "summary").getD "unknown") "m1"
        (if 200 < [' '].length then ['x'].take 200 ++ ['.', '.', '.'] else ['x'])
        (1 - (some (1 / 2 : ℚ)).getD 0)) := by
  have h := (C8_snippets_amended [CtxDoc.mk ['x'] (some "summary") "m1" (some (1 / 2))]).2
    0 (CtxDoc.mk ['x'] (some "summary") "m1" (some (1 / 2))) rfl (by decide)
  simpa using h.1

/-- C10: the claim says a match whose response omits the distances field is
assigned distance 0; with two matches and no distances field the formatter
instead fails on the second index of the one-element default [[0]] (an
IndexError), producing no formatted result list at all. -/
theorem C10_missing_distances_counterexample :
    _format_search_results twoMatchesNoDistances = none ∧
    (none : Option (List SearchDoc)) ≠
      some [SearchDoc.mk "content0" (Metadata.mk "m1" "summary" none) 0,
            SearchDoc.mk "content1" (Metadata.mk "m1" "decision" none) 0] := by
  exact ⟨rfl, by simp⟩

/-- C10 (amended): when the response omits the distances field and contains
exactly one match, that match is assigned distance 0 and its reported
relevance score is the maximum 1; with two or more matches the formatter
raises an index error, which search swallows into an empty result list. -/
theorem C10_missing_distances_amended (idv content : String) (meta : Metadata)
    (env : SearchEnv) :
    _format_search_results (RawQueryResults.mk [[idv]] [[content]] [[meta]] none) =
      some [SearchDoc.mk content meta 0] ∧
    (_format_context_snippets [toCtxDoc (SearchDoc.mk content meta 0)]).map
      (fun s => s.relevance_score) = [1] ∧
    (env.getStatus = 200 → (∃ v, env.embedOutcome = .ok v) → env.queryStatus = 200 →
      env.queryRaw = twoMatchesNoDistances → search env = .ok []) := by
  refine ⟨rfl, ?_, ?_⟩
  · simp only [_format_context_snippets, toCtxDoc, List.take, List.map]
    norm_num
  · rintro h ⟨v, hv⟩ hq hraw
    rw [search, if_neg (by simpa using h), hv]
    dsimp only
    rw [if_neg (by simpa using hq), hraw]
    rfl

/-- C10 witness: the amended theorem at a concrete one-match response and at
a concrete environment whose query returns the two-match response. -/
theorem C10_missing_distances_witness :
    _format_search_results (RawQueryResults.mk [["id0"]] [["hello"]]
        [[Metadata.mk "m1" "summary" none]] none) =
      some [SearchDoc.mk "hello" (Metadata.mk "m1" "summary" none) 0] ∧
    search (SearchEnv.mk 200 (.ok [0]) 200 twoMatchesNoDistances) = .ok [] :=
  ⟨(C10_missing_distances_amended "id0" "hello" (Metadata.mk "m1" "summary" none)
      (SearchEnv.mk 200 (.ok [0]) 200 twoMatchesNoDistances)).1,
   (C10_missing_distances_amended "id0" "hello" (Metadata.mk "m1" "summary" none)
      (SearchEnv.mk 200 (.ok [0]) 200 twoMatchesNoDistances)).2.2 rfl ⟨[0], rfl⟩ rfl rfl⟩

theorem numChunks_700 : numChunks 700 = 2 := by
  have h1 : ((700 : ℚ) - OVERLAP_SECONDS) / effective_chunk_duration = 69 / 59 := by
    norm_num [OVERLAP_SECONDS, effective_chunk_duration, CHUNK_DURATION_SECONDS]
  have h2 : ⌊(69 / 59 : ℚ)⌋ = 1 := by
    rw [Int.floor_eq_iff]
    norm_num
  rw [numChunks, h1]
  rw [pyInt, if_pos (by norm_num), h2]
  rfl

/-- C9: the claim says every temporary chunk file is deleted on every exit
path of transcribe_audio.  For a 700 s file split into 2 chunks where the
ffmpeg call for chunk 1 exceeds its 60 s timeout, subprocess.TimeoutExpired
is not caught (only CalledProcessError is), so the invocation returns with
both temp files still on disk; on the paths the code does handle
(successful split with and without a transcription failure) cleanup is
complete. -/
theorem C9_timeout_leak :
    transcribe_audio_chunked 700 timeoutOracle true = (.httpFailure, [0, 1]) ∧
    ([0, 1] : List ℕ) ≠ [] ∧
    transcribe_audio_chunked 700 okOracle true = (.httpFailure, []) ∧
    transcribe_audio_chunked 700 okOracle false = (.transcriptReady, []) := by
  have hsplit : split_audio_files 700 timeoutOracle = (.uncaughtTimeout, [0, 1]) := by
    rw [split_audio_files, numChunks_700]
    decide
  have hsplit2 : split_audio_files 700 okOracle = (.finished [0, 1], [0, 1]) := by
    rw [split_audio_files, numChunks_700]
    decide
  refine ⟨?_, by decide, ?_, ?_⟩
  · rw [transcribe_audio_chunked, hsplit]
    decide
  · rw [transcribe_audio_chunked, hsplit2]
    decide
  · rw [transcribe_audio_chunked, hsplit2]
    decide

end MeetMind
